import Mathlib

/-!
Shallow embedding of the value-encoding layer of the vco-rs repository
(`src/api_v1/src/date_time.rs`, `src/api_v1/src/network_address.rs`,
`src/api_v1/src/tinyint.rs`), together with models of the external
libraries those files call into (the `time` crate, Rust std address
parsing, the `mac_address` crate, and the serde dispatch layer).
-/

deriving instance DecidableEq for Except

/-! ## Proleptic Gregorian calendar arithmetic

Model of the date arithmetic used internally by the `time` crate.  The
algorithms are the standard civil-from-days / days-from-civil conversions
over the proleptic Gregorian calendar, with `1970-01-01` as day zero.
All divisions are written explicitly with floor division (`Int.fdiv`) or
on `Nat`, so no truncation ambiguity arises. -/

def isLeapYear (y : Int) : Bool :=
  y.emod 4 = 0 && (y.emod 100 ≠ 0 || y.emod 400 = 0)

def daysInMonth (y : Int) (m : Nat) : Nat :=
  if m = 1 then 31
  else if m = 2 then (if isLeapYear y then 29 else 28)
  else if m = 3 then 31
  else if m = 4 then 30
  else if m = 5 then 31
  else if m = 6 then 30
  else if m = 7 then 31
  else if m = 8 then 31
  else if m = 9 then 30
  else if m = 10 then 31
  else if m = 11 then 30
  else 31

/-- Number of days from 1970-01-01 to the civil date `y-m-d` (may be negative). -/
def daysFromCivil (y : Int) (m d : Nat) : Int :=
  let y1 : Int := if m ≤ 2 then y - 1 else y
  let era : Int := y1.fdiv 400
  let yoe : Nat := (y1 - era * 400).toNat
  let mp : Nat := if 2 < m then m - 3 else m + 9
  let doy : Nat := (153 * mp + 2) / 5 + d - 1
  let doe : Nat := yoe * 365 + yoe / 4 - yoe / 100 + doy
  era * 146097 + (doe : Int) - 719468

/-- Inverse of `daysFromCivil`: the civil date `(y, m, d)` of day number `z`. -/
def civilFromDays (z : Int) : Int × Nat × Nat :=
  let z1 : Int := z + 719468
  let era : Int := z1.fdiv 146097
  let doe : Nat := (z1 - era * 146097).toNat
  let yoe : Nat := (doe - doe / 1460 + doe / 36524 - doe / 146096) / 365
  let doy : Nat := doe - (365 * yoe + yoe / 4 - yoe / 100)
  let mp : Nat := (5 * doy + 2) / 153
  let d : Nat := doy - (153 * mp + 2) / 5 + 1
  let m : Nat := if mp < 10 then mp + 3 else mp - 9
  let y : Int := (yoe : Int) + era * 400 + (if m ≤ 2 then 1 else 0)
  (y, m, d)

/-! ## Model of `time::OffsetDateTime`

An `OffsetDateTime` is an absolute instant (seconds and nanoseconds since
the Unix epoch, the nanoseconds nonnegative) together with a UTC offset in
seconds.  The stored instant is offset-independent; the offset only
affects formatting.  This mirrors the `time` crate, whose comparison and
equality are on the instant. -/

structure OffsetDateTime where
  epochSecs : Int
  nano : Nat
  offsetSecs : Int
deriving DecidableEq, Repr

/-- Model of `OffsetDateTime::to_offset(UtcOffset::UTC)`: same instant, offset zero. -/
def toUTC (t : OffsetDateTime) : OffsetDateTime :=
  { t with offsetSecs := 0 }

/-- Model of the `time` crate total order on `OffsetDateTime` (instant order). -/
def odtCompare (a b : OffsetDateTime) : Ordering :=
  if a.epochSecs < b.epochSecs then Ordering.lt
  else if b.epochSecs < a.epochSecs then Ordering.gt
  else if a.nano < b.nano then Ordering.lt
  else if b.nano < a.nano then Ordering.gt
  else Ordering.eq

/-- One instant is strictly earlier than another. -/
def odtEarlier (a b : OffsetDateTime) : Prop :=
  a.epochSecs < b.epochSecs ∨ (a.epochSecs = b.epochSecs ∧ a.nano < b.nano)

instance (a b : OffsetDateTime) : Decidable (odtEarlier a b) := by
  unfold odtEarlier; infer_instance

/-- Local civil components `(y, m, d, h, mi, s)` of an `OffsetDateTime`
at its own offset. -/
def odtComponents (t : OffsetDateTime) : Int × Nat × Nat × Nat × Nat × Nat :=
  let ls : Int := t.epochSecs + t.offsetSecs
  let days : Int := ls.fdiv 86400
  let sod : Nat := (ls - days * 86400).toNat
  let ymd := civilFromDays days
  (ymd.1, ymd.2.1, ymd.2.2, sod / 3600, sod % 3600 / 60, sod % 60)

/-! ## Model of RFC3339 formatting (`time::format_description::well_known::Rfc3339`)

The `time` crate can only format years 0000..=9999 and offsets that are a
whole number of minutes; outside that it returns a format error, which we
model as `none`.  Nonzero nanoseconds are printed with 3, 6 or 9 digits
depending on trailing zeros; a zero offset prints as `Z`. -/

def padNum (width n : Nat) : String :=
  let s := toString n
  (String.mk (List.replicate (width - s.length) (Char.ofNat 48))) ++ s

def subsecondStr (nano : Nat) : String :=
  if nano = 0 then ""
  else if nano % 1000000 = 0 then "." ++ padNum 3 (nano / 1000000)
  else if nano % 1000 = 0 then "." ++ padNum 6 (nano / 1000)
  else "." ++ padNum 9 nano

def offsetStr (offsetSecs : Int) : String :=
  if offsetSecs = 0 then "Z"
  else
    let a : Nat := offsetSecs.natAbs
    (if offsetSecs < 0 then "-" else "+") ++ padNum 2 (a / 3600) ++ ":" ++ padNum 2 (a % 3600 / 60)

/-- Model of formatting an `OffsetDateTime` with the well-known `Rfc3339`
format; `none` models the `Err` return of `format` (year out of the
0000..=9999 range, or an offset with a seconds component). -/
def rfc3339Format (t : OffsetDateTime) : Option String :=
  let c := odtComponents t
  if c.1 < 0 ∨ 9999 < c.1 then none
  else if t.offsetSecs.emod 60 ≠ 0 then none
  else some (padNum 4 c.1.toNat ++ "-" ++ padNum 2 c.2.1 ++ "-" ++ padNum 2 c.2.2.1
    ++ "T" ++ padNum 2 c.2.2.2.1 ++ ":" ++ padNum 2 c.2.2.2.2.1 ++ ":" ++ padNum 2 c.2.2.2.2.2
    ++ subsecondStr t.nano ++ offsetStr t.offsetSecs)

/-! ## Model of RFC3339 parsing (`OffsetDateTime::parse(_, &Rfc3339)`)

The error type mirrors `time::error::Parse` as far as the repository can
observe it (only through `to_string()`).  The display strings below are
the ones the `time` crate produces.  Simplification: the leap-second
special case (`:60`) is not modelled; seconds are 0..=59. -/

inductive TimeParseError where
  | invalidComponent (name : String)
  | invalidLiteral
  | unexpectedTrailing
  | componentRange (name : String) (lo hi : Int) (conditional : Bool)
deriving DecidableEq, Repr

/-- Display string of the modelled `time::error::Parse` (its `to_string()`). -/
def timeParseErrorDisplay : TimeParseError → String
  | .invalidComponent name => "the \x27" ++ name ++ "\x27 component could not be parsed"
  | .invalidLiteral => "a character literal was not valid"
  | .unexpectedTrailing => "unexpected trailing characters; the end of input was expected"
  | .componentRange name lo hi c =>
      name ++ " must be in the range " ++ toString lo ++ "..=" ++ toString hi
        ++ (if c then ", given values of other parameters" else "")

def digitVal (c : Char) : Option Nat :=
  if 48 ≤ c.toNat ∧ c.toNat ≤ 57 then some (c.toNat - 48) else none

/-- Read exactly `n` decimal digits, accumulating their value. -/
def readNDigits : Nat → Nat → List Char → Option (Nat × List Char)
  | 0, acc, cs => some (acc, cs)
  | n + 1, acc, c :: cs =>
      match digitVal c with
      | some d => readNDigits n (acc * 10 + d) cs
      | none => none
  | _ + 1, _, [] => none

/-- Greedily take decimal digits. -/
def takeDigits : List Char → List Nat × List Char
  | [] => ([], [])
  | c :: cs =>
      match digitVal c with
      | some d => let r := takeDigits cs; (d :: r.1, r.2)
      | none => ([], c :: cs)

def comp (name : String) (r : Option (Nat × List Char)) :
    Except TimeParseError (Nat × List Char) :=
  match r with
  | some x => Except.ok x
  | none => Except.error (TimeParseError.invalidComponent name)

def lit (c : Char) : List Char → Except TimeParseError (List Char)
  | x :: rest => if x = c then Except.ok rest else Except.error TimeParseError.invalidLiteral
  | [] => Except.error TimeParseError.invalidLiteral

/-- Match a literal ASCII character, case-insensitively (as
`ascii_char_ignore_case` in the `time` crate). -/
def litIC (c lower : Char) : List Char → Except TimeParseError (List Char)
  | x :: rest =>
      if x = c ∨ x = lower then Except.ok rest else Except.error TimeParseError.invalidLiteral
  | [] => Except.error TimeParseError.invalidLiteral

def chk (b : Bool) (e : TimeParseError) : Except TimeParseError Unit :=
  if b then Except.ok () else Except.error e

/-- Nanoseconds from the fractional digits: the first nine digits are
significant, further digits are consumed but contribute nothing
(matching the multiplier underflow in the `time` crate). -/
def nanoOfDigits (ds : List Nat) : Nat :=
  (ds.take 9).foldl (fun acc d => acc * 10 + d) 0 * 10 ^ (9 - min 9 ds.length)

/-- Parse the subsecond part: on `.`, at least one digit must follow. -/
def parseFrac : List Char → Except TimeParseError (Nat × List Char)
  | c :: rest =>
      if c = Char.ofNat 46 then
        match takeDigits rest with
        | ([], _) => Except.error (TimeParseError.invalidComponent "subsecond")
        | (ds, rest2) => Except.ok (nanoOfDigits ds, rest2)
      else Except.ok (0, c :: rest)
  | [] => Except.ok (0, [])

/-- Parse the offset part: `Z`/`z`, or a sign followed by `hh:mm`. -/
def parseOffset : List Char → Except TimeParseError (Int × List Char)
  | c :: rest =>
      if c = 'Z' ∨ c = 'z' then Except.ok (0, rest)
      else if c = '+' ∨ c = '-' then do
        let (oh, cs) ← comp "offset hour" (readNDigits 2 0 rest)
        let cs ← lit ':' cs
        let (om, cs) ← comp "offset minute" (readNDigits 2 0 cs)
        let _ ← chk (oh ≤ 25) (TimeParseError.invalidComponent "offset hour")
        let _ ← chk (om ≤ 59) (TimeParseError.invalidComponent "offset minute")
        let mag : Int := (oh : Int) * 3600 + (om : Int) * 60
        Except.ok ((if c = '-' then -mag else mag), cs)
      else Except.error (TimeParseError.invalidComponent "offset hour")
  | [] => Except.error (TimeParseError.invalidComponent "offset hour")

/-- Model of `OffsetDateTime::parse(value, &Rfc3339)`: four-digit year,
two-digit month/day/hour/minute/second with the literal separators,
optional fractional seconds, then `Z` or a numeric offset; component
validation follows the field order of the `time` crate, the
trailing-input check runs before the day-of-month range check. -/
def rfc3339Parse (s : String) : Except TimeParseError OffsetDateTime := do
  let cs := s.data
  let (y, cs) ← comp "year" (readNDigits 4 0 cs)
  let cs ← lit '-' cs
  let (mo, cs) ← comp "month" (readNDigits 2 0 cs)
  let _ ← chk (1 ≤ mo && mo ≤ 12) (TimeParseError.invalidComponent "month")
  let cs ← lit '-' cs
  let (d, cs) ← comp "day" (readNDigits 2 0 cs)
  let _ ← chk (1 ≤ d) (TimeParseError.invalidComponent "day")
  let cs ← litIC 'T' 't' cs
  let (h, cs) ← comp "hour" (readNDigits 2 0 cs)
  let _ ← chk (h ≤ 23) (TimeParseError.invalidComponent "hour")
  let cs ← lit ':' cs
  let (mi, cs) ← comp "minute" (readNDigits 2 0 cs)
  let _ ← chk (mi ≤ 59) (TimeParseError.invalidComponent "minute")
  let cs ← lit ':' cs
  let (sec, cs) ← comp "second" (readNDigits 2 0 cs)
  let _ ← chk (sec ≤ 59) (TimeParseError.invalidComponent "second")
  let (nano, cs) ← parseFrac cs
  let (offSecs, cs) ← parseOffset cs
  let _ ← chk cs.isEmpty TimeParseError.unexpectedTrailing
  let _ ← chk (d ≤ daysInMonth (y : Int) mo)
    (TimeParseError.componentRange "day" 1 (daysInMonth (y : Int) mo) true)
  let localSecs : Int := daysFromCivil (y : Int) mo d * 86400
    + (h : Int) * 3600 + (mi : Int) * 60 + (sec : Int)
  Except.ok ⟨localSecs - offSecs, nano, offSecs⟩

/-! ## `DateTime` (src/api_v1/src/date_time.rs) -/

inductive DateTime where
  | None
  | Never
  | Stamp (inner : OffsetDateTime)
deriving DecidableEq, Repr

inductive DateTimeError where
  | BadDateTimeString (s : String)
  | BadUnixTimestamp (v : Int)
  | NoRfc3339Equivalent
  | InvalidYear (n : Nat)
  | InvalidMonth (n : Nat)
  | InvalidDay (n : Nat)
  | InvalidHour (n : Nat)
  | InvalidMinute (n : Nat)
  | InvalidSecond (n : Nat)
deriving DecidableEq, Repr

/-- Display strings of `DateTimeError` as generated by `thiserror`. -/
def DateTimeError.message : DateTimeError → String
  | .BadDateTimeString s => "Bad date/time string format: \x22" ++ s ++ "\x22"
  | .BadUnixTimestamp v => "Bad unix timestamp: \x22" ++ toString v ++ "\x22"
  | .NoRfc3339Equivalent => "Cannot convert to RFC3339"
  | .InvalidYear n => "Invalid year: \x22" ++ toString n ++ "\x22"
  | .InvalidMonth n => "Invalid month: \x22" ++ toString n ++ "\x22"
  | .InvalidDay n => "Invalid day: \x22" ++ toString n ++ "\x22"
  | .InvalidHour n => "Invalid hour: \x22" ++ toString n ++ "\x22"
  | .InvalidMinute n => "Invalid minute: \x22" ++ toString n ++ "\x22"
  | .InvalidSecond n => "Invalid second: \x22" ++ toString n ++ "\x22"

/-- Result of running a fallible Rust function that may also panic. -/
inductive RunResult (ε α : Type) where
  | ok (a : α)
  | err (e : ε)
  | panicked
deriving DecidableEq, Repr

/-- Model of `DateTime::from_rfc3339`: parse, convert to UTC; on parse
failure the error payload is `e.to_string()` of the parse error. -/
def DateTime.from_rfc3339 (value : String) : Except DateTimeError DateTime :=
  match rfc3339Parse value with
  | Except.ok odt => Except.ok (DateTime.Stamp (toUTC odt))
  | Except.error e => Except.error (DateTimeError.BadDateTimeString (timeParseErrorDisplay e))

/-- Smallest unix timestamp representable by the `time` crate with default
features (`-9999-01-01T00:00:00Z`). -/
def minUnixTs : Int := daysFromCivil (-9999) 1 1 * 86400

/-- Largest whole-second unix timestamp representable (`9999-12-31T23:59:59Z`). -/
def maxUnixTs : Int := daysFromCivil 9999 12 31 * 86400 + 86399

/-- Model of `DateTime::from_unix_timestamp`: `OffsetDateTime::from_unix_timestamp`
fails outside the representable range, the result is already at UTC. -/
def DateTime.from_unix_timestamp (value : Int) : Except DateTimeError DateTime :=
  if minUnixTs ≤ value ∧ value ≤ maxUnixTs then
    Except.ok (DateTime.Stamp (toUTC ⟨value, 0, 0⟩))
  else Except.error (DateTimeError.BadUnixTimestamp value)

/-- Model of `DateTime::offset_date_time_to_rfc3339_string`: `none` models
the `panic!` taken when `format(&Rfc3339)` returns an error. -/
def offset_date_time_to_rfc3339_string (inner : OffsetDateTime) : Option String :=
  rfc3339Format inner

/-- Model of `DateTime::to_rfc3339`. -/
def DateTime.to_rfc3339 : DateTime → RunResult DateTimeError String
  | DateTime.None => RunResult.err DateTimeError.NoRfc3339Equivalent
  | DateTime.Never => RunResult.err DateTimeError.NoRfc3339Equivalent
  | DateTime.Stamp inner =>
      match offset_date_time_to_rfc3339_string inner with
      | some s => RunResult.ok s
      | none => RunResult.panicked

/-- Model of `impl Serialize for DateTime`: the wire string that
`serialize_str` receives (serialization itself cannot fail, but building
the string can panic through `offset_date_time_to_rfc3339_string`). -/
def dtSerialize : DateTime → RunResult DateTimeError String
  | DateTime.None => RunResult.ok "null"
  | DateTime.Never => RunResult.ok "0000-00-00 00:00:00"
  | DateTime.Stamp inner =>
      match offset_date_time_to_rfc3339_string inner with
      | some s => RunResult.ok s
      | none => RunResult.panicked

/-- Model of `impl Display for DateTime` (`none` models the panic inside
the `Stamp` arm). -/
def dtDisplay : DateTime → Option String
  | DateTime.None => some "null"
  | DateTime.Never => some "never"
  | DateTime.Stamp inner => offset_date_time_to_rfc3339_string inner

/-- Model of `impl PartialOrd for DateTime` (`partial_cmp`): only two
`Stamp`s compare, via the total instant order of `OffsetDateTime`. -/
def DateTime.pcmp : DateTime → DateTime → Option Ordering
  | DateTime.Stamp a, DateTime.Stamp b => some (odtCompare a b)
  | _, _ => none

/-! ## serde decoding dispatch for `DateTime`

`deserialize_any` with `DateTimeVisitor`: the visitor implements
`visit_u64`, `visit_str` and `visit_unit`.  A negative JSON integer is
delivered to the default `Visitor::visit_i64`, which fails with an
invalid-type error; a nonnegative integer is delivered to `visit_u64`
and cast `as i64` (wrapping at `2^63`). -/

inductive WireToken where
  | str (s : String)
  | int (n : Int)
  | unit
deriving DecidableEq, Repr

/-- Wrapping `u64 as i64` cast. -/
def wrapU64 (n : Nat) : Int :=
  if n < 2 ^ 63 then (n : Int) else (n : Int) - 2 ^ 64

/-- Message of serde's default `visit_i64` (invalid type) for this visitor. -/
def serdeInvalidTypeSigned (n : Int) : String :=
  "invalid type: integer `" ++ toString n ++ "`, expected either an RFC3339 date string or an epoch timestamp"

/-- Model of `impl Deserialize for DateTime` applied to one wire token. -/
def dateTimeDeserialize : WireToken → Except String DateTime
  | WireToken.unit => Except.ok DateTime.None
  | WireToken.str v =>
      if v = "null" then Except.ok DateTime.None
      else if v = "0000-00-00 00:00:00" then Except.ok DateTime.Never
      else (DateTime.from_rfc3339 v).mapError DateTimeError.message
  | WireToken.int n =>
      if n < 0 then Except.error (serdeInvalidTypeSigned n)
      else if n < 2 ^ 64 then
        (DateTime.from_unix_timestamp (wrapU64 n.toNat)).mapError DateTimeError.message
      else Except.error "invalid type: floating point value, expected either an RFC3339 date string or an epoch timestamp"

/-! ## Network addresses (src/api_v1/src/network_address.rs)

The address families delegate parsing to external libraries: `Ipv4Addr`
and `Ipv6Addr` to Rust std (whose `AddrParseError` displays as the
constant strings `invalid IPv4 address syntax` / `invalid IPv6 address
syntax`), and `MacAddress` to the `mac_address` crate.  Those parsers are
modelled below following the library sources. -/

inductive Address (α : Type) where
  | Undefined
  | Unknown
  | Some (a : α)
deriving DecidableEq, Repr

inductive AddressError where
  | InvalidIpV4Addr (s : String)
  | InvalidIpV6Addr (s : String)
  | InvalidMacAddress (s : String)
deriving DecidableEq, Repr

structure Ipv4Addr where
  o1 : Nat
  o2 : Nat
  o3 : Nat
  o4 : Nat
deriving DecidableEq, Repr

structure Ipv6Addr where
  segs : List Nat
deriving DecidableEq, Repr

structure MacAddress where
  bytes : List Nat
deriving DecidableEq, Repr

def hexDigitVal (c : Char) : Option Nat :=
  if 48 ≤ c.toNat ∧ c.toNat ≤ 57 then some (c.toNat - 48)
  else if 97 ≤ c.toNat ∧ c.toNat ≤ 102 then some (c.toNat - 87)
  else if 65 ≤ c.toNat ∧ c.toNat ≤ 70 then some (c.toNat - 55)
  else none

def radixDigitVal (radix : Nat) (c : Char) : Option Nat :=
  if radix = 16 then hexDigitVal c else digitVal c

/-- Greedily take digits of the given radix. -/
def takeRadixDigits (radix : Nat) : List Char → List Nat × List Char
  | [] => ([], [])
  | c :: cs =>
      match radixDigitVal radix c with
      | some d => let r := takeRadixDigits radix cs; (d :: r.1, r.2)
      | none => ([], c :: cs)

/-- Model of Rust std `Parser::read_number`: greedy digits, at least one,
at most `maxDigits`, no leading zero when `allowZeroPfx` is false, and
the accumulated value must fit the target integer (`maxVal`). -/
def readNumRadix (radix maxDigits : Nat) (allowZeroPfx : Bool) (maxVal : Nat)
    (cs : List Char) : Option (Nat × List Char) :=
  let r := takeRadixDigits radix cs
  let ds := r.1
  if ds.length = 0 then none
  else if maxDigits < ds.length then none
  else
    let v := ds.foldl (fun acc d => acc * radix + d) 0
    if maxVal < v then none
    else if !allowZeroPfx && ds.headI = 0 && 1 < ds.length then none
    else some (v, r.2)

def expectChar (c : Char) : List Char → Option (List Char)
  | x :: rest => if x = c then some rest else none
  | [] => none

/-- Model of Rust std `Parser::read_ipv4_addr` on a character stream:
four octets (decimal, at most three digits, no leading zeros, value at
most 255) separated by dots; the rest of the stream is returned. -/
def readIpv4Chars (cs : List Char) : Option (Ipv4Addr × List Char) := do
  let (a, cs) ← readNumRadix 10 3 false 255 cs
  let cs ← expectChar (Char.ofNat 46) cs
  let (b, cs) ← readNumRadix 10 3 false 255 cs
  let cs ← expectChar (Char.ofNat 46) cs
  let (c, cs) ← readNumRadix 10 3 false 255 cs
  let cs ← expectChar (Char.ofNat 46) cs
  let (d, cs) ← readNumRadix 10 3 false 255 cs
  some (⟨a, b, c, d⟩, cs)

/-- Model of `Ipv4Addr::from_str`: the whole string must be consumed. -/
def ipv4ParseStr (s : String) : Option Ipv4Addr :=
  match readIpv4Chars s.data with
  | some (a, []) => some a
  | _ => none

/-- Model of Rust std `read_groups` (the helper inside `read_ipv6_addr`):
reads up to `limit` colon-separated 16-bit hex groups starting at group
index `i`, trying a trailing embedded IPv4 address while at least two
slots remain.  Returns the groups read, whether an embedded IPv4 ended
the sequence, and the unconsumed input. -/
def readGroupsGo : Nat → Nat → Nat → List Char → List Nat × Bool × List Char
  | 0, _, _, cs => ([], false, cs)
  | fuel + 1, i, limit, cs =>
      let sepRes : Option (List Char) := if i = 0 then some cs else expectChar ':' cs
      match sepRes with
      | none => ([], false, cs)
      | some cs2 =>
          match (if i + 1 < limit then readIpv4Chars cs2 else none) with
          | some (v4, rest) => ([v4.o1 * 256 + v4.o2, v4.o3 * 256 + v4.o4], true, rest)
          | none =>
              match readNumRadix 16 4 true 65535 cs2 with
              | some (g, rest) =>
                  let r := readGroupsGo fuel (i + 1) limit rest
                  (g :: r.1, r.2.1, r.2.2)
              | none => ([], false, cs)

/-- Model of `Ipv6Addr::from_str` (std `read_ipv6_addr` plus the
whole-string check): up to eight groups, a single `::` filling the rest
with zero groups, and an embedded IPv4 address allowed only in trailing
position. -/
def ipv6ParseStr (s : String) : Option Ipv6Addr :=
  let r := readGroupsGo 8 0 8 s.data
  let head := r.1
  let headV4 := r.2.1
  let rest := r.2.2
  if head.length = 8 then
    if rest = [] then some ⟨head⟩ else none
  else if headV4 then none
  else
    match rest with
    | ':' :: ':' :: rest2 =>
        let limit := 8 - (head.length + 1)
        let r2 := readGroupsGo limit 0 limit rest2
        let tail := r2.1
        if r2.2.2 = [] then
          some ⟨head ++ List.replicate (8 - head.length - tail.length) 0 ++ tail⟩
        else none
    | _ => none

/-! Model of the `mac_address` crate parser: split on `:` and `-`, exactly
six parts, each parsed with `u8::from_str_radix(_, 16)` (which accepts an
optional leading `+` and any number of hex digits while the value fits). -/

inductive MacParseError where
  | InvalidDigit
  | InvalidLength
deriving DecidableEq, Repr

def macErrDisplay : MacParseError → String
  | MacParseError.InvalidDigit => "invalid digit"
  | MacParseError.InvalidLength => "invalid length"

def splitSep : List Char → List (List Char)
  | [] => [[]]
  | c :: rest =>
      let r := splitSep rest
      if c = ':' ∨ c = '-' then [] :: r
      else
        match r with
        | h :: t => (c :: h) :: t
        | [] => [[c]]

/-- Model of `u8::from_str_radix(part, 16)`. -/
def parseHexByte (cs : List Char) : Option Nat :=
  let cs2 := match cs with
    | '+' :: r => r
    | _ => cs
  match cs2.mapM hexDigitVal with
  | some ds =>
      if ds.isEmpty then none
      else
        let v := ds.foldl (fun acc d => acc * 16 + d) 0
        if v ≤ 255 then some v else none
  | none => none

def macGo : List (List Char) → Nat → Except MacParseError (List Nat)
  | [], n => if n = 6 then Except.ok [] else Except.error MacParseError.InvalidLength
  | p :: rest, n =>
      if n = 6 then Except.error MacParseError.InvalidLength
      else
        match parseHexByte p with
        | some b => (macGo rest (n + 1)).map (fun bs => b :: bs)
        | none => Except.error MacParseError.InvalidDigit

/-- Model of `MacAddress::from_str` of the `mac_address` crate. -/
def macParseStr (s : String) : Except MacParseError MacAddress :=
  (macGo (splitSep s.data) 0).map MacAddress.mk

/-! Display / `to_string` of the three address types. -/

def ipv4Ser (a : Ipv4Addr) : String :=
  toString a.o1 ++ "." ++ toString a.o2 ++ "." ++ toString a.o3 ++ "." ++ toString a.o4

def hexLower (n : Nat) : String :=
  String.mk (Nat.toDigits 16 n)

/-- Count of leading zero segments. -/
def leadingZeroRun : List Nat → Nat
  | 0 :: rest => leadingZeroRun rest + 1
  | _ => 0

/-- Longest (leftmost on ties) run of zero segments, as `(start, length)`. -/
def bestRunGo : List Nat → Nat → Nat × Nat → Nat × Nat
  | [], _, best => best
  | x :: rest, i, best =>
      let here := if x = 0 then leadingZeroRun (x :: rest) else 0
      let best2 := if best.2 < here then (i, here) else best
      bestRunGo rest (i + 1) best2

def joinHexSegs (l : List Nat) : String :=
  String.intercalate ":" (l.map hexLower)

/-- Model of `impl Display for Ipv6Addr` in Rust std: all-zero and
loopback sentinels, IPv4-compatible and IPv4-mapped forms, otherwise
hex segments with the longest zero run (length at least two) compressed. -/
def ipv6Ser (a : Ipv6Addr) : String :=
  match a.segs with
  | [0, 0, 0, 0, 0, 0, 0, 0] => "::"
  | [0, 0, 0, 0, 0, 0, 0, 1] => "::1"
  | [0, 0, 0, 0, 0, 0, g, h] =>
      "::" ++ toString (g / 256) ++ "." ++ toString (g % 256) ++ "."
        ++ toString (h / 256) ++ "." ++ toString (h % 256)
  | [0, 0, 0, 0, 0, 65535, g, h] =>
      "::ffff:" ++ toString (g / 256) ++ "." ++ toString (g % 256) ++ "."
        ++ toString (h / 256) ++ "." ++ toString (h % 256)
  | segs =>
      let best := bestRunGo segs 0 (0, 0)
      if 2 ≤ best.2 then
        joinHexSegs (segs.take best.1) ++ "::" ++ joinHexSegs (segs.drop (best.1 + best.2))
      else joinHexSegs segs

def hexChU (n : Nat) : Char :=
  if n < 10 then Char.ofNat (48 + n) else Char.ofNat (55 + n)

def hex2U (n : Nat) : String :=
  String.mk [hexChU (n / 16), hexChU (n % 16)]

/-- Model of `impl Display for MacAddress` (uppercase hex pairs joined by `:`). -/
def macSer (a : MacAddress) : String :=
  String.intercalate ":" (a.bytes.map hex2U)

/-! The `NetAddress` trait and its three impls. -/

structure NetAddressImpl (α : Type) where
  de : String → Except AddressError (Address α)
  ser : α → String

def UNSET : String := "unset"

/-- Model of `impl NetAddress for Ipv4Addr::de`; the error payload is
`e.to_string()` of std `AddrParseError`, the constant
`invalid IPv4 address syntax`. -/
def ipv4De (value : String) : Except AddressError (Address Ipv4Addr) :=
  if value = "" then Except.ok Address.Undefined
  else
    match ipv4ParseStr value with
    | some a => Except.ok (Address.Some a)
    | none => Except.error (AddressError.InvalidIpV4Addr "invalid IPv4 address syntax")

/-- Model of `impl NetAddress for Ipv6Addr::de`. -/
def ipv6De (value : String) : Except AddressError (Address Ipv6Addr) :=
  if value = "" then Except.ok Address.Undefined
  else
    match ipv6ParseStr value with
    | some a => Except.ok (Address.Some a)
    | none => Except.error (AddressError.InvalidIpV6Addr "invalid IPv6 address syntax")

/-- Model of `impl NetAddress for MacAddress::de`: this impl alone also
recognizes the `UNKNOWN` sentinel. -/
def macDe (value : String) : Except AddressError (Address MacAddress) :=
  if value = "" then Except.ok Address.Undefined
  else if value = "UNKNOWN" then Except.ok Address.Unknown
  else
    match macParseStr value with
    | Except.ok a => Except.ok (Address.Some a)
    | Except.error e => Except.error (AddressError.InvalidMacAddress (macErrDisplay e))

def Ipv4Impl : NetAddressImpl Ipv4Addr := ⟨ipv4De, ipv4Ser⟩

def Ipv6Impl : NetAddressImpl Ipv6Addr := ⟨ipv6De, ipv6Ser⟩

def MacImpl : NetAddressImpl MacAddress := ⟨macDe, macSer⟩

/-- Model of `impl TryFrom<&str> for Address<T>`: any `de` error is
replaced by `InvalidIpV4Addr` carrying the original input. -/
def addressTryFrom {α : Type} (T : NetAddressImpl α) (value : String) :
    Except AddressError (Address α) :=
  match T.de value with
  | Except.ok a => Except.ok a
  | Except.error _ => Except.error (AddressError.InvalidIpV4Addr value)

/-- Model of `impl From<&Address<T>> for String` (the wire encoding,
also used by `Serialize`). -/
def stringFromAddress {α : Type} (T : NetAddressImpl α) : Address α → String
  | Address.Undefined => ""
  | Address.Unknown => "UNKNOWN"
  | Address.Some addr => T.ser addr

/-- Model of `impl Display for Address<T>`. -/
def addressDisplay {α : Type} (T : NetAddressImpl α) : Address α → String
  | Address.Undefined => UNSET
  | Address.Unknown => "UNKNOWN"
  | Address.Some v => T.ser v

/-! ## TinyInt (src/api_v1/src/tinyint.rs) -/

structure TinyInt where
  b : Bool
deriving DecidableEq, Repr

inductive TinyIntError where
  | InvalidValue (n : Nat)
deriving DecidableEq, Repr

def tinyIntErrDisplay : TinyIntError → String
  | TinyIntError.InvalidValue n => "Invalid value for TinyInt: \x22" ++ toString n ++ "\x22"

/-- Model of `impl TryFrom<u8> for TinyInt` (the argument is a `u8`,
so callers only pass values up to 255). -/
def TinyInt.tryFromU8 : Nat → Except TinyIntError TinyInt
  | 0 => Except.ok ⟨false⟩
  | 1 => Except.ok ⟨true⟩
  | n + 2 => Except.error (TinyIntError.InvalidValue (n + 2))

/-- Model of `TinyIntVisitor::visit_u64`: the `u64` is first converted to
`u8` (failing with the `TryFromIntError` display string for values above
255), then passed to `TryFrom<u8>`; both errors reach serde through
`E::custom`. -/
def tinyIntVisitU64 (v : Nat) : Except String TinyInt :=
  if v ≤ 255 then (TinyInt.tryFromU8 v).mapError tinyIntErrDisplay
  else Except.error "out of range integral type conversion attempted"

/-- Model of `impl Serialize for TinyInt` (total). -/
def tinyIntSerialize (t : TinyInt) : Nat :=
  if t.b then 1 else 0

/-- Model of `impl Display for TinyInt` (debug form of the inner bool). -/
def tinyIntDisplay (t : TinyInt) : String :=
  if t.b then "true" else "false"

/-! ## Helper definitions used by the round-trip statements -/

/-- Decode a wire string with `from_rfc3339`, then re-encode it. -/
def encodeDecoded (s : String) : RunResult DateTimeError String :=
  match DateTime.from_rfc3339 s with
  | Except.ok dt => dtSerialize dt
  | Except.error e => RunResult.err e

/-- Decode an epoch integer, then render it with `to_rfc3339`. -/
def epochToRfc3339 (n : Int) : RunResult DateTimeError String :=
  match DateTime.from_unix_timestamp n with
  | Except.ok dt => DateTime.to_rfc3339 dt
  | Except.error e => RunResult.err e

/-! ## Claims -/

/-- C1 counterexample: decoding the literal `UNKNOWN` under the IPv4
family does not return `Unknown`; it attempts an IPv4 parse and fails. -/
theorem c1_counterexample :
    ipv4De "UNKNOWN" ≠ Except.ok Address.Unknown
  ∧ ipv4De "UNKNOWN" = Except.error (AddressError.InvalidIpV4Addr "invalid IPv4 address syntax") := by
  decide

/-- C1 (amended): only the hardware/MAC family maps `UNKNOWN` to the
`Unknown` variant; the IPv4 and IPv6 families hand the literal to their
address parsers, which fail with the family-specific error. -/
theorem c1_amended :
    macDe "UNKNOWN" = Except.ok Address.Unknown
  ∧ ipv4De "UNKNOWN" = Except.error (AddressError.InvalidIpV4Addr "invalid IPv4 address syntax")
  ∧ ipv6De "UNKNOWN" = Except.error (AddressError.InvalidIpV6Addr "invalid IPv6 address syntax") := by
  decide

/-- C2 counterexample: a failed IPv4 decode carries the constant parser
diagnostic, not the offending text, and a failed RFC3339 decode carries
the time parser message, not the offending text. -/
theorem c2_counterexample :
    ipv4De "not-an-ip" = Except.error (AddressError.InvalidIpV4Addr "invalid IPv4 address syntax")
  ∧ "invalid IPv4 address syntax" ≠ "not-an-ip"
  ∧ DateTime.from_rfc3339 "not-a-date" =
      Except.error (DateTimeError.BadDateTimeString
        (timeParseErrorDisplay (TimeParseError.invalidComponent "year")))
  ∧ timeParseErrorDisplay (TimeParseError.invalidComponent "year") ≠ "not-a-date" := by
  decide

/-- C2 (amended): failed decodes return distinguishable typed errors whose
variant names the kind/family, but the payload is the underlying parser
diagnostic (`e.to_string()`), not the offending raw token: IPv4 and IPv6
failures always carry the constant std messages, and RFC3339 failures
carry the display of some time-parse error. -/
theorem c2_amended :
    (∀ s e, ipv4De s = Except.error e →
      e = AddressError.InvalidIpV4Addr "invalid IPv4 address syntax")
  ∧ (∀ s e, ipv6De s = Except.error e →
      e = AddressError.InvalidIpV6Addr "invalid IPv6 address syntax")
  ∧ (∀ s e, DateTime.from_rfc3339 s = Except.error e →
      ∃ pe, e = DateTimeError.BadDateTimeString (timeParseErrorDisplay pe)) := by
  refine ⟨?_, ?_, ?_⟩ <;> intro s e h
  · unfold ipv4De at h
    split at h
    · simp at h
    · split at h
      · simp at h
      · injection h with h2
        exact h2.symm
  · unfold ipv6De at h
    split at h
    · simp at h
    · split at h
      · simp at h
      · injection h with h2
        exact h2.symm
  · unfold DateTime.from_rfc3339 at h
    split at h
    · simp at h
    · rename_i pe _
      injection h with h2
      exact ⟨pe, h2.symm⟩

/-- C2 witness: the amended statement applied at the concrete failing
input `not-an-ip`. -/
theorem c2_amended_witness :
    ipv4De "not-an-ip" = Except.error (AddressError.InvalidIpV4Addr "invalid IPv4 address syntax")
  ∧ AddressError.InvalidIpV4Addr "invalid IPv4 address syntax"
      = AddressError.InvalidIpV4Addr "invalid IPv4 address syntax" := by
  refine ⟨by decide, ?_⟩
  exact c2_amended.1 "not-an-ip" (AddressError.InvalidIpV4Addr "invalid IPv4 address syntax") (by decide)

/-- C3 (code bug evidence): the instant `-62167219201` (one second before
`0000-01-01T00:00:00Z`) is accepted by `from_unix_timestamp`, but both the
wire encoding and `to_rfc3339` hit the panic branch, because the RFC3339
formatter rejects negative years. -/
theorem c3_encode_panics :
    DateTime.from_unix_timestamp (-62167219201) =
      Except.ok (DateTime.Stamp ⟨-62167219201, 0, 0⟩)
  ∧ dtSerialize (DateTime.Stamp ⟨-62167219201, 0, 0⟩) = RunResult.panicked
  ∧ DateTime.to_rfc3339 (DateTime.Stamp ⟨-62167219201, 0, 0⟩) = RunResult.panicked := by
  decide

/-- C4 counterexample: the negative integer token `-1` does not go to
`parse_epoch_seconds` (which would accept it); it fails at the serde
dispatch layer with an invalid-type error. -/
theorem c4_counterexample :
    dateTimeDeserialize (WireToken.int (-1)) = Except.error (serdeInvalidTypeSigned (-1))
  ∧ DateTime.from_unix_timestamp (-1) = Except.ok (DateTime.Stamp ⟨-1, 0, 0⟩) := by
  decide

/-- C4 (amended): a nonnegative integer token below `2^63` goes to
`parse_epoch_seconds`; one in `2^63..2^64` is first wrapped by the
`as i64` cast; a negative integer token fails at the dispatch layer; the
string sentinels, the RFC3339 fallback and the wire unit behave as the
claim states. -/
theorem c4_amended :
    (∀ n : Nat, (n : Int) < 2 ^ 63 →
      dateTimeDeserialize (WireToken.int (n : Int)) =
        (DateTime.from_unix_timestamp (n : Int)).mapError DateTimeError.message)
  ∧ (∀ n : Nat, 2 ^ 63 ≤ (n : Int) → (n : Int) < 2 ^ 64 →
      dateTimeDeserialize (WireToken.int (n : Int)) =
        (DateTime.from_unix_timestamp ((n : Int) - 2 ^ 64)).mapError DateTimeError.message)
  ∧ (∀ n : Int, n < 0 →
      dateTimeDeserialize (WireToken.int n) = Except.error (serdeInvalidTypeSigned n))
  ∧ dateTimeDeserialize (WireToken.str "null") = Except.ok DateTime.None
  ∧ dateTimeDeserialize (WireToken.str "0000-00-00 00:00:00") = Except.ok DateTime.Never
  ∧ (∀ s : String, s ≠ "null" → s ≠ "0000-00-00 00:00:00" →
      dateTimeDeserialize (WireToken.str s) =
        (DateTime.from_rfc3339 s).mapError DateTimeError.message)
  ∧ dateTimeDeserialize WireToken.unit = Except.ok DateTime.None := by
  refine ⟨?_, ?_, ?_, rfl, ?_, ?_, rfl⟩
  · intro n h
    simp only [dateTimeDeserialize]
    rw [if_neg (show ¬ (n : Int) < 0 by omega),
      if_pos (show (n : Int) < 2 ^ 64 by omega)]
    have h2 : wrapU64 ((n : Int)).toNat = (n : Int) := by
      unfold wrapU64
      rw [if_pos (show ((n : Int)).toNat < 2 ^ 63 by omega)]
      omega
    rw [h2]
  · intro n h1 h2
    simp only [dateTimeDeserialize]
    rw [if_neg (show ¬ (n : Int) < 0 by omega), if_pos h2]
    have h3 : wrapU64 ((n : Int)).toNat = (n : Int) - 2 ^ 64 := by
      unfold wrapU64
      rw [if_neg (show ¬ ((n : Int)).toNat < 2 ^ 63 by omega)]
      omega
    rw [h3]
  · intro n h
    simp only [dateTimeDeserialize]
    rw [if_pos h]
  · rfl
  · intro s h1 h2
    simp only [dateTimeDeserialize]
    rw [if_neg h1, if_neg h2]

/-- C4 witness: the amended statement applied at the concrete tokens `0`
(integer) and a plain RFC3339 string. -/
theorem c4_amended_witness :
    ((0 : Int) < 2 ^ 63
      ∧ dateTimeDeserialize (WireToken.int 0) =
          (DateTime.from_unix_timestamp 0).mapError DateTimeError.message)
  ∧ dateTimeDeserialize (WireToken.int (-5)) = Except.error (serdeInvalidTypeSigned (-5)) := by
  refine ⟨⟨by norm_num, ?_⟩, ?_⟩
  · exact c4_amended.1 0 (by norm_num)
  · exact c4_amended.2.2.1 (-5) (by norm_num)

/-- C5: two instants compare by the instant order (strictly earlier gives
`lt`), and `Absent`/`Indefinite` are incomparable with everything,
themselves included. -/
theorem c5_ordering :
    (∀ a b : OffsetDateTime, odtEarlier a b →
      DateTime.pcmp (DateTime.Stamp a) (DateTime.Stamp b) = some Ordering.lt)
  ∧ (∀ x : DateTime,
      DateTime.pcmp DateTime.None x = none
    ∧ DateTime.pcmp x DateTime.None = none
    ∧ DateTime.pcmp DateTime.Never x = none
    ∧ DateTime.pcmp x DateTime.Never = none) := by
  constructor
  · intro a b h
    simp only [DateTime.pcmp, odtCompare]
    rcases h with h | ⟨h1, h2⟩
    · rw [if_pos h]
    · rw [if_neg (show ¬ a.epochSecs < b.epochSecs by omega),
        if_neg (show ¬ b.epochSecs < a.epochSecs by omega), if_pos h2]
  · intro x
    refine ⟨?_, ?_, ?_, ?_⟩ <;> cases x <;> rfl

/-- C5 witness: the ordering statement applied at two concrete instants. -/
theorem c5_ordering_witness :
    odtEarlier ⟨0, 0, 0⟩ ⟨1, 0, 0⟩
  ∧ DateTime.pcmp (DateTime.Stamp ⟨0, 0, 0⟩) (DateTime.Stamp ⟨1, 0, 0⟩) = some Ordering.lt := by
  refine ⟨by decide, ?_⟩
  exact c5_ordering.1 ⟨0, 0, 0⟩ ⟨1, 0, 0⟩ (by decide)

/-- C6 counterexample: decoding the integer 256 fails with the `u8`
conversion error message, which is not the `InvalidValue` error carrying
the offending integer that the claim requires. -/
theorem c6_counterexample :
    tinyIntVisitU64 256 = Except.error "out of range integral type conversion attempted"
  ∧ tinyIntVisitU64 256 ≠ Except.error (tinyIntErrDisplay (TinyIntError.InvalidValue 256)) := by
  decide

/-- C6 (amended): 0 decodes to false and 1 to true; integers 2..=255 fail
with `InvalidValue` carrying the offending integer; integers above 255
fail earlier, with the `u8` range-conversion error that does not carry
the integer; encoding is total with false to 0 and true to 1. -/
theorem c6_amended :
    TinyInt.tryFromU8 0 = Except.ok ⟨false⟩
  ∧ TinyInt.tryFromU8 1 = Except.ok ⟨true⟩
  ∧ (∀ n : Nat, n ≠ 0 → n ≠ 1 →
      TinyInt.tryFromU8 n = Except.error (TinyIntError.InvalidValue n))
  ∧ (∀ n : Nat, 2 ≤ n → n ≤ 255 →
      tinyIntVisitU64 n = Except.error (tinyIntErrDisplay (TinyIntError.InvalidValue n)))
  ∧ (∀ n : Nat, 255 < n →
      tinyIntVisitU64 n = Except.error "out of range integral type conversion attempted")
  ∧ tinyIntSerialize ⟨false⟩ = 0 ∧ tinyIntSerialize ⟨true⟩ = 1 := by
  refine ⟨rfl, rfl, ?_, ?_, ?_, rfl, rfl⟩
  · intro n h0 h1
    match n with
    | 0 => exact absurd rfl h0
    | 1 => exact absurd rfl h1
    | k + 2 => rfl
  · intro n h2 h255
    unfold tinyIntVisitU64
    rw [if_pos h255]
    match n with
    | 0 => omega
    | 1 => omega
    | k + 2 => rfl
  · intro n h
    unfold tinyIntVisitU64
    rw [if_neg (by omega)]

/-- C6 witness: the amended statement applied at the concrete integers 2
and 300. -/
theorem c6_amended_witness :
    ((2 : Nat) ≠ 0 ∧ (2 : Nat) ≠ 1
      ∧ TinyInt.tryFromU8 2 = Except.error (TinyIntError.InvalidValue 2))
  ∧ tinyIntVisitU64 300 = Except.error "out of range integral type conversion attempted" := by
  refine ⟨⟨by decide, by decide, ?_⟩, ?_⟩
  · exact c6_amended.2.2.1 2 (by decide) (by decide)
  · exact c6_amended.2.2.2.2.1 300 (by norm_num)

/-- C7: re-encoding a decoded RFC3339 string agrees with `to_rfc3339` of
the decoded value, and the two concrete round trips of the claim hold:
the +05:30 example re-encodes UTC-normalized, and the epoch example
renders as its UTC RFC3339 string. -/
theorem c7_roundtrip :
    (∀ s dt, DateTime.from_rfc3339 s = Except.ok dt →
      dtSerialize dt = DateTime.to_rfc3339 dt)
  ∧ encodeDecoded "2023-01-02T03:04:05.000+05:30" = RunResult.ok "2023-01-01T21:34:05Z"
  ∧ epochToRfc3339 1686489749 = RunResult.ok "2023-06-11T13:22:29Z" := by
  refine ⟨?_, by decide, by decide⟩
  intro s dt h
  unfold DateTime.from_rfc3339 at h
  split at h
  · injection h with h2
    subst h2
    unfold dtSerialize DateTime.to_rfc3339
    rfl
  · simp at h

/-- C7 witness: the general round-trip clause applied at a concrete
decoded string. -/
theorem c7_roundtrip_witness :
    DateTime.from_rfc3339 "2023-01-02T03:04:05Z" =
      Except.ok (DateTime.Stamp ⟨1672628645, 0, 0⟩)
  ∧ dtSerialize (DateTime.Stamp ⟨1672628645, 0, 0⟩) =
      DateTime.to_rfc3339 (DateTime.Stamp ⟨1672628645, 0, 0⟩) := by
  refine ⟨by decide, ?_⟩
  exact c7_roundtrip.1 "2023-01-02T03:04:05Z" (DateTime.Stamp ⟨1672628645, 0, 0⟩) (by decide)

/-- C8: the two temporal sentinels round-trip (`null` to `Absent`,
`0000-00-00 00:00:00` to `Indefinite`, and back), and `to_rfc3339` on the
sentinels fails with the no-canonical-form error. -/
theorem c8_sentinels :
    dateTimeDeserialize (WireToken.str "null") = Except.ok DateTime.None
  ∧ dtSerialize DateTime.None = RunResult.ok "null"
  ∧ dateTimeDeserialize (WireToken.str "0000-00-00 00:00:00") = Except.ok DateTime.Never
  ∧ dtSerialize DateTime.Never = RunResult.ok "0000-00-00 00:00:00"
  ∧ DateTime.to_rfc3339 DateTime.None = RunResult.err DateTimeError.NoRfc3339Equivalent
  ∧ DateTime.to_rfc3339 DateTime.Never = RunResult.err DateTimeError.NoRfc3339Equivalent := by
  decide

/-- C9: `Indefinite` displays as `never` but encodes as the zero
date-time sentinel, and `Undefined` addresses display as `unset` but
encode as the empty string, for each of the three address families. -/
theorem c9_display_divergence :
    dtDisplay DateTime.Never = some "never"
  ∧ dtSerialize DateTime.Never = RunResult.ok "0000-00-00 00:00:00"
  ∧ addressDisplay Ipv4Impl Address.Undefined = "unset"
  ∧ stringFromAddress Ipv4Impl Address.Undefined = ""
  ∧ addressDisplay Ipv6Impl Address.Undefined = "unset"
  ∧ stringFromAddress Ipv6Impl Address.Undefined = ""
  ∧ addressDisplay MacImpl Address.Undefined = "unset"
  ∧ stringFromAddress MacImpl Address.Undefined = "" := by
  decide

/-- C10: for every address family, the generic `TryFrom` conversion
replaces any family decode error by the IPv4-labelled variant carrying the
original input string, and passes successful decodes through unchanged. -/
theorem c10_tryfrom : ∀ {α : Type} (T : NetAddressImpl α) (s : String),
    ((∃ e, T.de s = Except.error e) →
      addressTryFrom T s = Except.error (AddressError.InvalidIpV4Addr s))
  ∧ (∀ v, T.de s = Except.ok v → addressTryFrom T s = Except.ok v) := by
  intro α T s
  constructor
  · rintro ⟨e, he⟩
    unfold addressTryFrom
    rw [he]
  · intro v hv
    unfold addressTryFrom
    rw [hv]

/-- C10 witness: the conversion applied to the IPv6 family at the input
`UNKNOWN` yields the IPv4-labelled error carrying that input. -/
theorem c10_tryfrom_witness :
    (∃ e, Ipv6Impl.de "UNKNOWN" = Except.error e)
  ∧ addressTryFrom Ipv6Impl "UNKNOWN" = Except.error (AddressError.InvalidIpV4Addr "UNKNOWN") := by
  refine ⟨⟨AddressError.InvalidIpV6Addr "invalid IPv6 address syntax", by decide⟩, ?_⟩
  exact (c10_tryfrom Ipv6Impl "UNKNOWN").1
    ⟨AddressError.InvalidIpV6Addr "invalid IPv6 address syntax", by decide⟩
